import Mathlib

/-!
Shallow embedding of the Vedic birth-chart engine
(src/lib/jyotishCalculations.js and its caller BirthChartForm.jsx).

JavaScript numbers are modelled as rationals (ℚ); transcendental values the
code obtains from Math.sin and from the external astronomy-engine library
(ecliptic longitudes/latitudes, sidereal time) are abstracted as explicit
parameters, bounded by hypotheses where the claims need bounds.
The JavaScript remainder operator, whose result takes the sign of the
dividend, is modelled by jsMod below; Math.floor is Int.floor.
-/

namespace Astro

/-- Truncation toward zero, the rounding used by the JavaScript `%` operator. -/
def ratTrunc (x : ℚ) : ℤ := if 0 ≤ x then ⌊x⌋ else ⌈x⌉

/-- JavaScript remainder: x % y = x − y·trunc(x/y); the result has the sign
of the dividend x. -/
def jsMod (x y : ℚ) : ℚ := x - y * (ratTrunc (x / y) : ℚ)

/-- Mathematical (floor) modulus, used on the specification side: the
representative of x modulo y lying in [0, y) for y > 0. -/
def mathMod (x y : ℚ) : ℚ := x - y * (⌊x / y⌋ : ℚ)

/-! (Properties of these helpers are proved in the theorems section below.) -/

/-! ## Ayanamsa service (tropicalToSidereal, jyotishCalculations.js lines 44-54) -/

/-- Lahiri-style ayanamsa: 23.85 + (year − 1900) × 0.013972. -/
def ayanamsa (year : ℤ) : ℚ := 23.85 + ((year : ℚ) - 1900) * 0.013972

/-- tropicalToSidereal: subtract the ayanamsa, then apply the code's two
sequential conditional fix-ups (add 360 if negative, subtract 360 if ≥ 360). -/
def tropicalToSidereal (tropicalLongitude : ℚ) (year : ℤ) : ℚ :=
  let s := tropicalLongitude - ayanamsa year
  let s := if s < 0 then s + 360 else s
  if 360 ≤ s then s - 360 else s

/-! ## Data model -/

/-- The nine tracked bodies. -/
inductive Body
  | Sun | Moon | Mercury | Venus | Mars | Jupiter | Saturn | Rahu | Ketu
  deriving DecidableEq, Repr

/-- One body's computed position (the record literals assigned into the
`planets` object). -/
structure BodyPosition where
  longitude : ℚ
  latitude : ℚ
  retrograde : Bool
  deriving DecidableEq, Repr

/-- Geocentric ecliptic coordinates as returned by Astronomy.Ecliptic. -/
structure EclipticCoords where
  elon : ℚ
  elat : ℚ
  deriving DecidableEq, Repr

/-- Model of the external astronomy-engine ephemeris: for each body, the
Ecliptic call at the chart instant and at the instant 24 hours later.
`none` models the call throwing an exception. -/
structure PrimaryEphemeris where
  ecliptic : Body → Option EclipticCoords
  eclipticNext : Body → Option EclipticCoords

/-- Opaque Math.sin outputs consumed by the SECONDARY (fallback) series.
Each field stands for one sine evaluation in calculateSunPosition /
calculateMoonPosition; the claims proved here hold for arbitrary values. -/
structure SecondaryTrig where
  sunSinM : ℚ
  sunSin2M : ℚ
  sunSin3M : ℚ
  moonSinMp : ℚ
  moonSin2DMp : ℚ
  moonSin2D : ℚ

/-- Everything one chart request depends on: the external-capability results
and the numeric quantities the code derives from the birth Date object.
year/yearNext are getFullYear() at the instant and 24 hours later;
dayOfYear is the code's floor((date − Jan 0) / 86400000); T the Julian
centuries used by the fallback; jd the Julian Day used by the fallback
ascendant; st the Astronomy.SiderealTime result in hours (none = throws);
sinLat the Math.sin(toRadians(lat)) value. -/
structure ChartEnv where
  eph : PrimaryEphemeris
  trig : SecondaryTrig
  st : Option ℚ
  sinLat : ℚ
  year : ℤ
  yearNext : ℤ
  dayOfYear : ℤ
  T : ℚ
  jd : ℚ
  lat : ℚ
  lng : ℚ

/-! ## SECONDARY position strategy (jyotishCalculations.js lines 148-258) -/

/-- calculateSunPosition: mean longitude plus equation of center, normalized,
then converted to sidereal. The three sine evaluations are the trig
parameters. -/
def calculateSunPosition (T : ℚ) (sinM sin2M sin3M : ℚ) (year : ℤ) : BodyPosition :=
  let L0 := 280.46646 + 36000.76983 * T + 0.0003032 * T * T
  let C := (1.914602 - 0.004817 * T - 0.000014 * T * T) * sinM +
           (0.019993 - 0.000101 * T) * sin2M +
           0.000289 * sin3M
  let longitude := jsMod (L0 + C) 360
  let longitude := if longitude < 0 then longitude + 360 else longitude
  { longitude := tropicalToSidereal longitude year
    latitude := 0
    retrograde := false }

/-- calculateMoonPosition: truncated lunar-theory series, normalized, then
converted to sidereal. -/
def calculateMoonPosition (T : ℚ) (sinMp sin2DMp sin2D : ℚ) (year : ℤ) : BodyPosition :=
  let L := 218.3164477 + 481267.88123421 * T - 0.0015786 * T * T
  let longitude := L + 6.288774 * sinMp + 1.274027 * sin2DMp + 0.658314 * sin2D
  let normalizedLongitude := jsMod longitude 360
  let normalizedLongitude :=
    if normalizedLongitude < 0 then normalizedLongitude + 360 else normalizedLongitude
  { longitude := tropicalToSidereal normalizedLongitude year
    latitude := 0
    retrograde := false }

/-- Epoch mean longitude (the L element) for the five planets. -/
def planetElementL : Body → Option ℚ
  | .Mercury => some 252.25032350
  | .Venus => some 181.97909950
  | .Mars => some 355.43299958
  | .Jupiter => some 34.39644051
  | .Saturn => some 50.07744430
  | _ => none

/-- Mean-longitude rate for the five planets. -/
def planetRate : Body → ℚ
  | .Mercury => 149472.67411175
  | .Venus => 58517.81538729
  | .Mars => 19140.30268499
  | .Jupiter => 3034.74612775
  | .Saturn => 1222.49362201
  | _ => 0

/-- Retrograde-chance constant for the five planets. -/
def retrogradeChance : Body → ℚ
  | .Mercury => 0.2
  | .Venus => 0.15
  | .Mars => 0.1
  | .Jupiter => 0.08
  | .Saturn => 0.08
  | _ => 0

/-- calculatePlanetPosition: linear mean-longitude model, normalized and
converted to sidereal, with the day-of-year-modulo retrograde heuristic.
Bodies without orbital elements get the code's {0, 0, false} default. -/
def calculatePlanetPosition (planetName : Body) (T : ℚ) (year : ℤ) (dayOfYear : ℤ) :
    BodyPosition :=
  match planetElementL planetName with
  | none => { longitude := 0, latitude := 0, retrograde := false }
  | some eL =>
    let L := eL + planetRate planetName * T
    let longitude := jsMod L 360
    let longitude := if longitude < 0 then longitude + 360 else longitude
    let chance := retrogradeChance planetName
    let retrograde := jsMod ((dayOfYear : ℚ) * chance) 1 < chance
    { longitude := tropicalToSidereal longitude year
      latitude := 0
      retrograde := retrograde }

/-! ## Lunar nodes (jyotishCalculations.js lines 263-281) -/

/-- The {rahu, ketu} record returned by calculateLunarNodes. -/
structure LunarNodes where
  rahu : ℚ
  ketu : ℚ
  deriving DecidableEq, Repr

/-- calculateLunarNodes: mean ascending node, normalized into [0,360),
Ketu opposite, both converted to sidereal. -/
def calculateLunarNodes (year : ℤ) (dayOfYear : ℤ) : LunarNodes :=
  let meanNode :=
    125.0445479 - 1934.1362891 * ((year : ℚ) - 2000) / 365.25 -
      0.0020756 * (dayOfYear : ℚ)
  let rahu := jsMod meanNode 360
  let rahu := if rahu < 0 then rahu + 360 else rahu
  let ketu := jsMod (rahu + 180) 360
  { rahu := tropicalToSidereal rahu year
    ketu := tropicalToSidereal ketu year }

/-! ## PRIMARY strategy and the one-shot fallback policy
(getAccuratePlanetaryPositions, jyotishCalculations.js lines 60-143) -/

/-- Which position strategy produced a value; used to label ephemeris calls
in the ghost call trace. -/
inductive Strategy
  | primary | secondary
  deriving DecidableEq, Repr

/-- PRIMARY per-body computation: the two Astronomy.Ecliptic calls (current
and +24h), sidereal conversion, and the signed-difference retrograde test
skipped for Sun and Moon. `none` models an exception escaping the forEach
body because one of the Ecliptic calls threw. -/
def primaryBodyPosition (eph : PrimaryEphemeris) (year yearNext : ℤ) (b : Body) :
    Option BodyPosition :=
  match eph.ecliptic b, eph.eclipticNext b with
  | some e, some f =>
    let siderealLongitude := tropicalToSidereal e.elon year
    let futureSidereal := tropicalToSidereal f.elon yearNext
    let retrograde :=
      if b = .Sun ∨ b = .Moon then false
      else
        let d := futureSidereal - siderealLongitude
        let d := if 180 < d then d - 360 else d
        let d := if d < -180 then d + 360 else d
        d < 0
    some { longitude := siderealLongitude, latitude := e.elat, retrograde := retrograde }
  | _, _ => none

/-- SECONDARY per-body computation, dispatching to the three fallback
series exactly as the catch block does. -/
def secondaryBodyPosition (env : ChartEnv) : Body → BodyPosition
  | .Sun =>
    calculateSunPosition env.T env.trig.sunSinM env.trig.sunSin2M env.trig.sunSin3M env.year
  | .Moon =>
    calculateMoonPosition env.T env.trig.moonSinMp env.trig.moonSin2DMp env.trig.moonSin2D
      env.year
  | b => calculatePlanetPosition b env.T env.year env.dayOfYear

/-- The seven classical bodies iterated by the provider, in source order. -/
def classicalBodies : List Body :=
  [.Sun, .Moon, .Mercury, .Venus, .Mars, .Jupiter, .Saturn]

/-- The mutable `planets` object: a partial map from body names. -/
def PlanetMap : Type := Body → Option BodyPosition

/-- Property assignment planets[name] = p. -/
def PlanetMap.set (m : PlanetMap) (b : Body) (p : BodyPosition) : PlanetMap :=
  fun x => if x = b then some p else m x

/-- The PRIMARY forEach loop: process bodies in order, assigning into the
map; if an Ecliptic call throws, the loop aborts with the partial map.
Returns (map, exception-escaped, ghost trace of ephemeris attempts). -/
def primaryLoop (eph : PrimaryEphemeris) (year yearNext : ℤ) :
    List Body → PlanetMap → PlanetMap × Bool × List (Strategy × Body)
  | [], m => (m, false, [])
  | b :: rest, m =>
    match primaryBodyPosition eph year yearNext b with
    | some p =>
      let r := primaryLoop eph year yearNext rest (m.set b p)
      (r.1, r.2.1, (.primary, b) :: r.2.2)
    | none => (m, true, [(.primary, b)])

/-- The catch block: overwrite all seven classical bodies with SECONDARY
positions. -/
def secondaryOverwrite (env : ChartEnv) (m : PlanetMap) :
    PlanetMap × List (Strategy × Body) :=
  (classicalBodies.foldl (fun m b => m.set b (secondaryBodyPosition env b)) m,
   classicalBodies.map fun b => (Strategy.secondary, b))

/-- getAccuratePlanetaryPositions: try the PRIMARY loop; on failure run the
SECONDARY overwrite; then add Rahu and Ketu from the lunar nodes. Also
returns the ghost trace of strategy attempts. -/
def getAccuratePlanetaryPositions (env : ChartEnv) :
    PlanetMap × List (Strategy × Body) :=
  let r := primaryLoop env.eph env.year env.yearNext classicalBodies (fun _ => none)
  let mt :=
    if r.2.1 then
      let s := secondaryOverwrite env r.1
      (s.1, r.2.2 ++ s.2)
    else (r.1, r.2.2)
  let moonNode := calculateLunarNodes env.year env.dayOfYear
  let m := mt.1.set .Rahu { longitude := moonNode.rahu, latitude := 0, retrograde := true }
  let m := m.set .Ketu { longitude := moonNode.ketu, latitude := 0, retrograde := true }
  (m, mt.2)

/-! ## Ascendant (calculateAccurateAscendant, jyotishCalculations.js lines 286-331) -/

/-- The {longitude, sign, degree} record for the Lagna. -/
structure Ascendant where
  longitude : ℚ
  sign : ℤ
  degree : ℚ
  deriving DecidableEq, Repr

/-- The primary ascendant path: local sidereal time from the external
SiderealTime value (hours), degree conversion, JS remainder, simplified
latitude correction, two conditional fix-ups, sidereal conversion. -/
def ascendantPrimaryPath (st sinLat lng : ℚ) (year : ℤ) : Ascendant :=
  let localSiderealTime := st + lng / 15
  let a := jsMod (localSiderealTime * 15) 360
  let latCorrection := sinLat * 23.44
  let a := a + latCorrection
  let a := if a < 0 then a + 360 else a
  let a := if 360 ≤ a then a - 360 else a
  let siderealAscendant := tropicalToSidereal a year
  { longitude := siderealAscendant
    sign := ⌊siderealAscendant / 30⌋
    degree := jsMod siderealAscendant 30 }

/-- The fallback ascendant path (the catch block): sidereal-time proxy from
the Julian Day, cruder latitude term, a single JS remainder and no
negativity fix-up, no sidereal conversion. -/
def ascendantFallbackPath (jd lat lng : ℚ) : Ascendant :=
  let localSiderealTime := (jd - 2451545.0) * 1.00273790935 + lng / 15
  let ascendantLongitude := jsMod (localSiderealTime * 15 + lat * 0.25) 360
  { longitude := ascendantLongitude
    sign := ⌊ascendantLongitude / 30⌋
    degree := jsMod ascendantLongitude 30 }

/-- calculateAccurateAscendant: the primary path when the external sidereal
time is available, otherwise the fallback. -/
def calculateAccurateAscendant (env : ChartEnv) : Ascendant :=
  match env.st with
  | some st => ascendantPrimaryPath st env.sinLat env.lng env.year
  | none => ascendantFallbackPath env.jd env.lat env.lng

/-! ## Time conversion (dateTimeToJulianDay, jyotishCalculations.js lines 11-28)

Modelled at timezone offset 0, where the environment-local Date round-trips
the given fields: utcTime.getHours() = hours, getMinutes() = minutes,
getSeconds() = 0 for in-range field values. -/

/-- dateTimeToJulianDay for timezone 0. -/
def dateTimeToJulianDay (year month day hours minutes : ℤ) : ℚ :=
  let a := ⌊((14 : ℚ) - month) / 12⌋
  let y := year + 4800 - a
  let m := month + 12 * a - 3
  let jdn := day + ⌊((153 * m + 2 : ℤ) : ℚ) / 5⌋ + 365 * y + ⌊((y : ℚ)) / 4⌋ -
    ⌊((y : ℚ)) / 100⌋ + ⌊((y : ℚ)) / 400⌋ - 32045
  let timeOfDay := ((hours : ℚ) + (minutes : ℚ) / 60) / 24
  (jdn : ℚ) + timeOfDay - 0.5

/-! ## Houses (calculateHouses, jyotishCalculations.js lines 336-346) -/

/-- One house entry. -/
structure HouseCusp where
  house : ℕ
  cusp : ℚ
  sign : ℚ
  deriving DecidableEq, Repr

/-- calculateHouses: twelve entries, each with JS-remainder cusp and
floor-then-remainder sign, exactly as the loop body builds them. -/
def calculateHouses (ascendantLongitude : ℚ) : List HouseCusp :=
  (List.range 12).map fun i =>
    { house := i + 1
      cusp := jsMod (ascendantLongitude + (i : ℚ) * 30) 360
      sign := jsMod ((⌊(ascendantLongitude + (i : ℚ) * 30) / 30⌋ : ℤ) : ℚ) 12 }

/-! ## Nakshatra / Rashi mapping (calculateBirthChart, jyotishCalculations.js
lines 386-409) -/

/-- The 27 nakshatra names, in table order. -/
def nakshatraNames : List String :=
  ["Ashwini", "Bharani", "Krittika", "Rohini", "Mrigashira", "Ardra", "Punarvasu",
   "Pushya", "Ashlesha", "Magha", "Purva Phalguni", "Uttara Phalguni", "Hasta",
   "Chitra", "Swati", "Vishakha", "Anuradha", "Jyeshtha", "Mula", "Purva Ashadha",
   "Uttara Ashadha", "Shravana", "Dhanishta", "Shatabhisha", "Purva Bhadrapada",
   "Uttara Bhadrapada", "Revati"]

/-- The 12 sign names, in table order. -/
def signNames : List String :=
  ["Aries", "Taurus", "Gemini", "Cancer", "Leo", "Virgo",
   "Libra", "Scorpio", "Sagittarius", "Capricorn", "Aquarius", "Pisces"]

/-- getNakshatraName: table lookup at number − 1, with the JS
out-of-bounds-gives-undefined ∥ fallback to "Unknown". -/
def getNakshatraName (number : ℤ) : String :=
  if 1 ≤ number ∧ number ≤ 27 then nakshatraNames.getD (number - 1).toNat "Unknown"
  else "Unknown"

/-- getSignName: wrap numbers above 12, then table lookup with the same
"Unknown" fallback. -/
def getSignName (number : ℤ) : String :=
  let adjustedNumber := if 12 < number then number - 12 else number
  if 1 ≤ adjustedNumber ∧ adjustedNumber ≤ 12 then
    signNames.getD (adjustedNumber - 1).toNat "Unknown"
  else "Unknown"

/-- The unwrapped nakshatra number floor(longitude / 13.333333) + 1, with the
code's truncated decimal constant. -/
def nakshatraNumberRaw (longitude : ℚ) : ℤ :=
  ⌊longitude / 13.333333⌋ + 1

/-- The wrapped nakshatra index: numbers above 27 have 27 subtracted. -/
def nakshatraIndex (longitude : ℚ) : ℤ :=
  let n := nakshatraNumberRaw longitude
  if 27 < n then n - 27 else n

/-- The pada floor((longitude % 13.333333) / 3.333333) + 1, with the code's
truncated decimal constants. -/
def nakshatraPada (longitude : ℚ) : ℤ :=
  ⌊jsMod longitude 13.333333 / 3.333333⌋ + 1

/-- One body's nakshatra placement, as assembled in calculateBirthChart. -/
structure NakshatraPlacement where
  nakshatra : ℤ
  pada : ℤ
  nakshatraName : String
  deriving DecidableEq, Repr

/-- The nakshatra record built for one body's longitude. -/
def nakshatraPlacementOf (longitude : ℚ) : NakshatraPlacement :=
  { nakshatra := nakshatraIndex longitude
    pada := nakshatraPada longitude
    nakshatraName := getNakshatraName (nakshatraNumberRaw longitude) }

/-- One body's rashi placement, as assembled in calculateBirthChart. -/
structure RashiPlacement where
  sign : ℤ
  degree : ℚ
  signName : String
  deriving DecidableEq, Repr

/-- The rashi record built for one body's longitude. -/
def rashiPlacementOf (longitude : ℚ) : RashiPlacement :=
  let signNumber := ⌊longitude / 30⌋ + 1
  { sign := if 12 < signNumber then signNumber - 12 else signNumber
    degree := jsMod longitude 30
    signName := getSignName signNumber }

/-! ## Orchestrator (calculateBirthChart, jyotishCalculations.js lines 358-433) -/

/-- The assembled BirthChart. The wall-clock calculatedAt field is omitted
(nondeterministic metadata excluded by the determinism property); birthInfo
echoes are omitted as pure copies of the input. -/
structure BirthChart where
  ascendant : Ascendant
  planetaryPositions : PlanetMap
  houses : List HouseCusp
  nakshatras : Body → Option NakshatraPlacement
  rashis : Body → Option RashiPlacement
  calculationMethod : String

/-- calculateBirthChart: positions, ascendant, houses, per-body nakshatra
and rashi maps, and the metadata string — which the source hardcodes to
'astronomy-engine (accurate)' on every path. -/
def calculateBirthChart (env : ChartEnv) : BirthChart :=
  let planetaryPositions := (getAccuratePlanetaryPositions env).1
  let ascendant := calculateAccurateAscendant env
  let houses := calculateHouses ascendant.longitude
  { ascendant := ascendant
    planetaryPositions := planetaryPositions
    houses := houses
    nakshatras := fun b => (planetaryPositions b).map fun d => nakshatraPlacementOf d.longitude
    rashis := fun b => (planetaryPositions b).map fun d => rashiPlacementOf d.longitude
    calculationMethod := "astronomy-engine (accurate)" }

/-! ## Validation and the submit pipeline
(validateBirthData, jyotishCalculations.js lines 498-527;
handleSubmit, BirthChartForm.jsx: validateBirthData then calculateBirthChart) -/

/-- The birth-data record handed to validateBirthData; none models a missing
(undefined) field. -/
structure BirthInput where
  date : Option String
  time : Option String
  lat : Option ℚ
  lng : Option ℚ

/-- \d of the date/time regexes: code points 48-57. -/
def isDigit (c : Char) : Bool :=
  decide (Char.ofNat 48 ≤ c) && decide (c ≤ Char.ofNat 57)

/-- The anchored regex \d\d\d\d-\d\d-\d\d as a structural match. -/
def matchesDatePattern (s : String) : Bool :=
  match s.data with
  | [a, b, c, d, h1, e, f, h2, g, k] =>
    isDigit a && isDigit b && isDigit c && isDigit d && (h1 = Char.ofNat 45) &&
    isDigit e && isDigit f && (h2 = Char.ofNat 45) && isDigit g && isDigit k
  | _ => false

/-- The anchored regex \d\d:\d\d as a structural match. -/
def matchesTimePattern (s : String) : Bool :=
  match s.data with
  | [a, b, h1, c, d] =>
    isDigit a && isDigit b && (h1 = Char.ofNat 58) && isDigit c && isDigit d
  | _ => false

/-- validateBirthData: the five sequential checks, each throwing its own
message; .ok true is the function's `return true`. A present-but-empty
string is falsy in the missing-field check, like undefined. -/
def validateBirthData (birthData : BirthInput) : Except String Bool :=
  match birthData.date, birthData.time, birthData.lat, birthData.lng with
  | some date, some time, some lat, some lng =>
    if date = "" ∨ time = "" then .error "Missing required birth data"
    else if ¬ matchesDatePattern date then .error "Invalid date format. Use YYYY-MM-DD"
    else if ¬ matchesTimePattern time then .error "Invalid time format. Use HH:MM"
    else if lat < -90 ∨ 90 < lat then .error "Invalid latitude. Must be between -90 and 90"
    else if lng < -180 ∨ 180 < lng then
      .error "Invalid longitude. Must be between -180 and 180"
    else .ok true
  | _, _, _, _ => .error "Missing required birth data"

/-- The submit pipeline of BirthChartForm.handleSubmit: validateBirthData,
then calculateBirthChart. The second component counts invocations of the
planetary position provider (getAccuratePlanetaryPositions), which
calculateBirthChart calls exactly once. -/
def runChartPipeline (env : ChartEnv) (birthData : BirthInput) :
    Except String BirthChart × ℕ :=
  match validateBirthData birthData with
  | .error m => (.error m, 0)
  | .ok _ => (.ok (calculateBirthChart env), 1)

/-! ## Specification-side definitions

These follow the wording of spec.md, for comparison with the source-derived
definitions above. -/

/-- Spec section 4.2: result = normalize(tropical − ayanamsa) into [0,360). -/
def specSiderealOf (tropical : ℚ) (year : ℤ) : ℚ :=
  mathMod (tropical - ayanamsa year) 360

/-- Spec section 4.6: cusp(i) = (ascendant + 30×i) mod 360, house = i+1,
sign = floor(cusp/30) mod 12. -/
def specHouseEntry (ascendant : ℚ) (i : ℕ) : HouseCusp :=
  let cusp := mathMod (ascendant + 30 * (i : ℚ)) 360
  { house := i + 1
    cusp := cusp
    sign := mathMod ((⌊cusp / 30⌋ : ℤ) : ℚ) 12 }

/-- The claim C4 node formula read literally, with yearsSince2000 taken as
calendarYear − 2000: 125.0445479 − 1934.1362891 × yearsSince2000 −
0.0020756 × dayOfYear. -/
def specMeanNodeLiteral (year dayOfYear : ℤ) : ℚ :=
  125.0445479 - 1934.1362891 * ((year : ℚ) - 2000) - 0.0020756 * (dayOfYear : ℚ)

/-- The lunar-node contract of spec section 4.4 with the literal
yearsSince2000 reading: normalize, Ketu = Rahu + 180 mod 360, each node
independently converted via section 4.2. -/
def specLunarNodesLiteral (year dayOfYear : ℤ) : LunarNodes :=
  let rahu := mathMod (specMeanNodeLiteral year dayOfYear) 360
  let ketu := mathMod (rahu + 180) 360
  { rahu := specSiderealOf rahu year
    ketu := specSiderealOf ketu year }

/-- The amended node formula: yearsSince2000 is computed by the source as
(calendarYear − 2000) / 365.25. -/
def specMeanNodeAmended (year dayOfYear : ℤ) : ℚ :=
  125.0445479 - 1934.1362891 * (((year : ℚ) - 2000) / 365.25) -
    0.0020756 * (dayOfYear : ℚ)

/-- The lunar-node contract of spec section 4.4 built from the amended mean
node: normalize into [0,360), Ketu = Rahu + 180 mod 360, each node
independently converted via section 4.2. -/
def specLunarNodesAmended (year dayOfYear : ℤ) : LunarNodes :=
  let rahu := mathMod (specMeanNodeAmended year dayOfYear) 360
  let ketu := mathMod (rahu + 180) 360
  { rahu := specSiderealOf rahu year
    ketu := specSiderealOf ketu year }

/-- Spec section 4.7: nakshatra index = floor(longitude / (360/27)) + 1,
wrapped into 1..27 — with the exact divisor 360/27. -/
def specNakshatraIndex (longitude : ℚ) : ℤ :=
  let n := ⌊longitude / (360 / 27)⌋ + 1
  if 27 < n then n - 27 else n

/-- Spec section 4.7: pada = floor((longitude mod (360/27)) / (360/108)) + 1 —
with the exact divisors 360/27 and 360/108. -/
def specNakshatraPada (longitude : ℚ) : ℤ :=
  ⌊mathMod longitude (360 / 27) / (360 / 108)⌋ + 1

/-- The validation rules listed by the spec (section 4.8) and claim C1:
a field missing (or empty, which the falsy check treats as missing), a date
not matching the 4-2-2 digit pattern, a time not matching the 2-2 digit
pattern, a latitude outside [-90,90], or a longitude outside [-180,180]. -/
def violatesValidationRules (i : BirthInput) : Prop :=
  i.date = none ∨ i.date = some "" ∨ i.time = none ∨ i.time = some "" ∨
  i.lat = none ∨ i.lng = none ∨
  (∃ d, i.date = some d ∧ matchesDatePattern d = false) ∨
  (∃ t, i.time = some t ∧ matchesTimePattern t = false) ∨
  (∃ la, i.lat = some la ∧ (la < -90 ∨ 90 < la)) ∨
  (∃ ln, i.lng = some ln ∧ (ln < -180 ∨ 180 < ln))

/-! ## Concrete environments and inputs used by witnesses and
counterexamples -/

/-- An environment in which every Astronomy.Ecliptic call throws, so the
PRIMARY strategy fails on its first body. -/
def envAllFail : ChartEnv :=
  { eph := { ecliptic := fun _ => none, eclipticNext := fun _ => none }
    trig := ⟨0, 0, 0, 0, 0, 0⟩
    st := some 0
    sinLat := 0
    year := 2024
    yearNext := 2024
    dayOfYear := 1
    T := 0
    jd := 0
    lat := 0
    lng := 0 }

/-- An environment in which every Astronomy.Ecliptic call succeeds, so the
PRIMARY strategy completes for all seven bodies. -/
def envAllOk : ChartEnv :=
  { envAllFail with
    eph := { ecliptic := fun _ => some ⟨10, 1⟩, eclipticNext := fun _ => some ⟨11, 1⟩ } }

/-- The invalid input of claim C1: the date and time match the pure digit
patterns, but the latitude and longitude are out of range. -/
def badBirthInput : BirthInput :=
  { date := some "2024-13-40", time := some "25:99", lat := some 91, lng := some 200 }

/-- A well-formed input dated before J2000: 1990-01-01 12:00 UTC at (0,0),
timezone 0. -/
def birthInput1990 : BirthInput :=
  { date := some "1990-01-01", time := some "12:00", lat := some 0, lng := some 0 }

/-- The environment derived from birthInput1990 when the primary ascendant
path throws (st = none): year 1990, Julian Day from dateTimeToJulianDay,
coordinates (0,0). -/
def env1990 : ChartEnv :=
  { eph := { ecliptic := fun _ => none, eclipticNext := fun _ => none }
    trig := ⟨0, 0, 0, 0, 0, 0⟩
    st := none
    sinLat := 0
    year := 1990
    yearNext := 1990
    dayOfYear := 1
    T := (dateTimeToJulianDay 1990 1 1 12 0 - 2451545) / 36525
    jd := dateTimeToJulianDay 1990 1 1 12 0
    lat := 0
    lng := 0 }

/-! # Theorems

Helper lemmas first, then the claim theorems. -/

theorem ratTrunc_nonneg_eq_floor {x : ℚ} (hx : 0 ≤ x) : ratTrunc x = ⌊x⌋ := by
  simp [ratTrunc, hx]

theorem ratTrunc_neg_eq_ceil {x : ℚ} (hx : ¬ 0 ≤ x) : ratTrunc x = ⌈x⌉ := by
  simp [ratTrunc, hx]

theorem jsMod_nonneg {x y : ℚ} (hx : 0 ≤ x) (hy : 0 < y) : 0 ≤ jsMod x y := by
  have hq : 0 ≤ x / y := div_nonneg hx hy.le
  have hfl : (⌊x / y⌋ : ℚ) ≤ x / y := Int.floor_le _
  have : y * (⌊x / y⌋ : ℚ) ≤ y * (x / y) := by
    exact mul_le_mul_of_nonneg_left hfl hy.le
  have hxy : y * (x / y) = x := by field_simp
  simp only [jsMod, ratTrunc_nonneg_eq_floor hq]
  linarith [this, hxy]

theorem jsMod_lt {x y : ℚ} (hy : 0 < y) : jsMod x y < y := by
  by_cases hx : 0 ≤ x
  · have hq : 0 ≤ x / y := div_nonneg hx hy.le
    have hfl : x / y - 1 < (⌊x / y⌋ : ℚ) := Int.sub_one_lt_floor _
    have h1 : y * (x / y - 1) < y * (⌊x / y⌋ : ℚ) :=
      mul_lt_mul_of_pos_left hfl hy
    have hxy : y * (x / y) = x := by field_simp
    simp only [jsMod, ratTrunc_nonneg_eq_floor hq]
    nlinarith
  · have hq : ¬ 0 ≤ x / y :=
      not_le.mpr (div_neg_of_neg_of_pos (not_le.mp hx) hy)
    have hcl : x / y ≤ (⌈x / y⌉ : ℚ) := Int.le_ceil _
    have h1 : y * (x / y) ≤ y * (⌈x / y⌉ : ℚ) := mul_le_mul_of_nonneg_left hcl hy.le
    have hxy : y * (x / y) = x := by field_simp
    simp only [jsMod, ratTrunc_neg_eq_ceil hq]
    nlinarith

theorem neg_lt_jsMod {x y : ℚ} (hy : 0 < y) : -y < jsMod x y := by
  by_cases hx : 0 ≤ x
  · have := jsMod_nonneg hx hy
    linarith
  · have hq : ¬ 0 ≤ x / y :=
      not_le.mpr (div_neg_of_neg_of_pos (not_le.mp hx) hy)
    have hcl : (⌈x / y⌉ : ℚ) < x / y + 1 := Int.ceil_lt_add_one _
    have h1 : y * (⌈x / y⌉ : ℚ) < y * (x / y + 1) := mul_lt_mul_of_pos_left hcl hy
    have hxy : y * (x / y) = x := by field_simp
    simp only [jsMod, ratTrunc_neg_eq_ceil hq]
    nlinarith

theorem jsMod_nonpos {x y : ℚ} (hx : ¬ 0 ≤ x) (hy : 0 < y) : jsMod x y ≤ 0 := by
  have hq : ¬ 0 ≤ x / y :=
    not_le.mpr (div_neg_of_neg_of_pos (not_le.mp hx) hy)
  have hcl : x / y ≤ (⌈x / y⌉ : ℚ) := Int.le_ceil _
  have h1 : y * (x / y) ≤ y * (⌈x / y⌉ : ℚ) := mul_le_mul_of_nonneg_left hcl hy.le
  have hxy : y * (x / y) = x := by field_simp
  simp only [jsMod, ratTrunc_neg_eq_ceil hq]
  linarith

theorem jsMod_eq_mathMod_of_nonneg {x y : ℚ} (hx : 0 ≤ x) (hy : 0 < y) :
    jsMod x y = mathMod x y := by
  have hq : 0 ≤ x / y := div_nonneg hx hy.le
  simp [jsMod, mathMod, ratTrunc_nonneg_eq_floor hq]

theorem mathMod_nonneg {x y : ℚ} (hy : 0 < y) : 0 ≤ mathMod x y := by
  have hfl : (⌊x / y⌋ : ℚ) ≤ x / y := Int.floor_le _
  have : y * (⌊x / y⌋ : ℚ) ≤ y * (x / y) := mul_le_mul_of_nonneg_left hfl hy.le
  have hxy : y * (x / y) = x := by field_simp
  simp only [mathMod]
  linarith

theorem mathMod_lt {x y : ℚ} (hy : 0 < y) : mathMod x y < y := by
  have hfl : x / y - 1 < (⌊x / y⌋ : ℚ) := Int.sub_one_lt_floor _
  have : y * (x / y - 1) < y * (⌊x / y⌋ : ℚ) := mul_lt_mul_of_pos_left hfl hy
  have hxy : y * (x / y) = x := by field_simp
  simp only [mathMod]
  nlinarith

/-- mathMod is invariant under shifting by integer multiples of the modulus. -/
theorem mathMod_add_int_mul (x : ℚ) (m : ℤ) :
    mathMod (x + 360 * (m : ℚ)) 360 = mathMod x 360 := by
  have h : (x + 360 * (m : ℚ)) / 360 = x / 360 + (m : ℚ) := by ring
  simp only [mathMod, h, Int.floor_add_int]
  push_cast
  ring

/-- The characteristic property: if 0 ≤ r < y and x = r + y·k then mathMod x y = r. -/
theorem mathMod_eq_of_decomp {x y r : ℚ} {k : ℤ} (hy : 0 < y)
    (h : x = r + y * (k : ℚ)) (hr0 : 0 ≤ r) (hr1 : r < y) : mathMod x y = r := by
  have hfl : ⌊x / y⌋ = k := by
    have hxy : x / y = r / y + (k : ℚ) := by
      rw [h]; field_simp; ring
    rw [hxy, Int.floor_add_int]
    have h0 : 0 ≤ r / y := div_nonneg hr0 hy.le
    have h1 : r / y < 1 := (div_lt_one hy).mpr hr1
    have hz : ⌊r / y⌋ = 0 := by
      rw [Int.floor_eq_zero_iff]
      exact Set.mem_Ico.mpr ⟨h0, h1⟩
    omega
  rw [mathMod, hfl, h]
  ring

theorem ayanamsa_bounds {year : ℤ} (h0 : 0 ≤ year) (h1 : year ≤ 9999) :
    -3 ≤ ayanamsa year ∧ ayanamsa year ≤ 138 := by
  have hc0 : (0 : ℚ) ≤ (year : ℚ) := by exact_mod_cast h0
  have hc1 : (year : ℚ) ≤ 9999 := by exact_mod_cast h1
  constructor <;> (simp only [ayanamsa]; nlinarith)

/-- For a tropical longitude already in [0,360) and a 4-digit calendar year,
the single-step fix-ups of tropicalToSidereal land in [0,360). -/
theorem tropicalToSidereal_mem {t : ℚ} {year : ℤ}
    (ht0 : 0 ≤ t) (ht1 : t < 360) (hy0 : 0 ≤ year) (hy1 : year ≤ 9999) :
    0 ≤ tropicalToSidereal t year ∧ tropicalToSidereal t year < 360 := by
  obtain ⟨ha0, ha1⟩ := ayanamsa_bounds hy0 hy1
  simp only [tropicalToSidereal]
  split
  · split
    · constructor <;> linarith
    · constructor <;> linarith
  · split
    · constructor <;> linarith
    · constructor <;> linarith

/-- tropicalToSidereal differs from its input minus the ayanamsa by a
multiple of 360 taken from {−1, 0, 1}. -/
theorem mathMod_add_mul_int {y : ℚ} (hy : y ≠ 0) (x : ℚ) (m : ℤ) :
    mathMod (x + y * (m : ℚ)) y = mathMod x y := by
  have h : (x + y * (m : ℚ)) / y = x / y + (m : ℚ) := by
    field_simp
    ring
  simp only [mathMod, h, Int.floor_add_int]
  push_cast
  ring

theorem jsMod_eq_self_of_abs_lt {x y : ℚ} (h : |x| < y) : jsMod x y = x := by
  have hy : 0 < y := lt_of_le_of_lt (abs_nonneg x) h
  by_cases hx : 0 ≤ x
  · have h0 : 0 ≤ x / y := div_nonneg hx hy.le
    have h1 : x / y < 1 := by
      rw [div_lt_one hy]
      calc x ≤ |x| := le_abs_self x
        _ < y := h
    have : ⌊x / y⌋ = 0 := by
      rw [Int.floor_eq_zero_iff]
      exact Set.mem_Ico.mpr ⟨h0, h1⟩
    simp [jsMod, ratTrunc_nonneg_eq_floor h0, this]
  · have hneg : x < 0 := not_le.mp hx
    have h0 : x / y ≤ 0 := div_nonpos_of_nonpos_of_nonneg hneg.le hy.le
    have h1 : -1 < x / y := by
      rw [neg_lt, ← neg_div]
      rw [div_lt_one hy]
      calc -x ≤ |x| := neg_le_abs x
        _ < y := h
    have hq : ¬ 0 ≤ x / y ∨ x / y = 0 := by
      rcases lt_or_eq_of_le h0 with hlt | heq
      · exact Or.inl (not_le.mpr hlt)
      · exact Or.inr heq
    have hc : ⌈x / y⌉ = 0 := by
      rw [Int.ceil_eq_zero_iff]
      exact Set.mem_Ioc.mpr ⟨h1, h0⟩
    rcases hq with hq | hq
    · simp [jsMod, ratTrunc_neg_eq_ceil hq, hc]
    · have : ratTrunc (x / y) = 0 := by
        simp [ratTrunc, hq]
      simp [jsMod, this]

/-- The idiom `r = x % 360; if (r < 0) r += 360` computes the mathematical
modulus. -/
theorem jsModFixup_eq_mathMod (x : ℚ) :
    (if jsMod x 360 < 0 then jsMod x 360 + 360 else jsMod x 360) = mathMod x 360 := by
  have h1 : -360 < jsMod x 360 := neg_lt_jsMod (by norm_num)
  have h2 : jsMod x 360 < 360 := jsMod_lt (by norm_num)
  have hx : x = jsMod x 360 + 360 * ((ratTrunc (x / 360) : ℤ) : ℚ) := by
    simp only [jsMod]
    ring
  split
  · rename_i hneg
    refine (@mathMod_eq_of_decomp x 360 (jsMod x 360 + 360) (ratTrunc (x / 360) - 1)
      (by norm_num) ?_ (by linarith) (by linarith)).symm
    push_cast
    linarith [hx]
  · rename_i hpos
    refine (@mathMod_eq_of_decomp x 360 (jsMod x 360) (ratTrunc (x / 360))
      (by norm_num) hx (by linarith) h2).symm

theorem normFixup360_mem (x : ℚ) :
    0 ≤ (if jsMod x 360 < 0 then jsMod x 360 + 360 else jsMod x 360) ∧
      (if jsMod x 360 < 0 then jsMod x 360 + 360 else jsMod x 360) < 360 := by
  rw [jsModFixup_eq_mathMod]
  exact ⟨mathMod_nonneg (by norm_num), mathMod_lt (by norm_num)⟩

theorem tropicalToSidereal_decomp (t : ℚ) (year : ℤ) :
    ∃ a : ℤ, (a = -1 ∨ a = 0 ∨ a = 1) ∧
      tropicalToSidereal t year = t - ayanamsa year + 360 * (a : ℚ) := by
  simp only [tropicalToSidereal]
  split
  · split
    · exact ⟨0, by norm_num⟩
    · exact ⟨1, by norm_num⟩
  · split
    · refine ⟨-1, by norm_num, ?_⟩
      push_cast
      ring
    · exact ⟨0, by norm_num⟩

/-- On inputs already in [0,360) with a 4-digit year, the code's
conditional fix-ups agree with the spec's mathematical normalization. -/
theorem tropicalToSidereal_eq_spec {t : ℚ} {year : ℤ}
    (ht0 : 0 ≤ t) (ht1 : t < 360) (hy0 : 0 ≤ year) (hy1 : year ≤ 9999) :
    tropicalToSidereal t year = specSiderealOf t year := by
  obtain ⟨m0, m1⟩ := tropicalToSidereal_mem ht0 ht1 hy0 hy1
  obtain ⟨a, ha, hdecomp⟩ := tropicalToSidereal_decomp t year
  refine (@mathMod_eq_of_decomp (t - ayanamsa year) 360 (tropicalToSidereal t year) (-a)
    (by norm_num) ?_ m0 m1).symm
  push_cast
  linarith [hdecomp]

theorem tropicalToSidereal_normFixup_mem (A : ℚ) {year : ℤ}
    (hy0 : 0 ≤ year) (hy1 : year ≤ 9999) :
    0 ≤ tropicalToSidereal (if jsMod A 360 < 0 then jsMod A 360 + 360 else jsMod A 360) year ∧
      tropicalToSidereal (if jsMod A 360 < 0 then jsMod A 360 + 360 else jsMod A 360) year
        < 360 := by
  obtain ⟨h0, h1⟩ := normFixup360_mem A
  exact tropicalToSidereal_mem h0 h1 hy0 hy1

/-- Decomposing floor(x/30) against the 360-degree cycle: it is 12 times the
cycle count plus the within-cycle sign index. -/
theorem floor_div_thirty_decomp (x : ℚ) :
    ⌊x / 30⌋ = 12 * ⌊x / 360⌋ + ⌊mathMod x 360 / 30⌋ := by
  have hx : x = mathMod x 360 + 360 * (⌊x / 360⌋ : ℚ) := by
    simp only [mathMod]
    ring
  have hdiv : x / 30 = mathMod x 360 / 30 + ((12 * ⌊x / 360⌋ : ℤ) : ℚ) := by
    push_cast
    linarith [hx]
  rw [hdiv, Int.floor_add_int]
  omega

/-! ### Behaviour of the planet map and the one-shot provider -/

theorem PlanetMap.set_self (m : PlanetMap) (b : Body) (p : BodyPosition) :
    (m.set b p) b = some p := by
  simp [PlanetMap.set]

theorem PlanetMap.set_other (m : PlanetMap) {b x : Body} (p : BodyPosition) (h : x ≠ b) :
    (m.set b p) x = m x := by
  simp [PlanetMap.set, h]

theorem foldl_set_apply (f : Body → BodyPosition) (l : List Body) (m : PlanetMap) (x : Body) :
    (l.foldl (fun m b => m.set b (f b)) m) x = if x ∈ l then some (f x) else m x := by
  induction l generalizing m with
  | nil => simp
  | cons b rest ih =>
    simp only [List.foldl_cons, ih, List.mem_cons]
    by_cases hx : x ∈ rest
    · simp [hx]
    · by_cases hxb : x = b
      · simp [hx, hxb, PlanetMap.set]
      · simp [hx, hxb, PlanetMap.set]

theorem primaryLoop_failed_iff (eph : PrimaryEphemeris) (y yn : ℤ) (l : List Body)
    (m : PlanetMap) :
    (primaryLoop eph y yn l m).2.1 = true ↔
      ∃ b ∈ l, primaryBodyPosition eph y yn b = none := by
  induction l generalizing m with
  | nil => simp [primaryLoop]
  | cons b rest ih =>
    cases h : primaryBodyPosition eph y yn b with
    | none =>
      simp only [primaryLoop, h]
      exact iff_of_true (by trivial) ⟨b, List.mem_cons_self b rest, h⟩
    | some p =>
      simp only [primaryLoop, h, ih, List.mem_cons]
      constructor
      · rintro ⟨b1, hb1, hn1⟩
        exact ⟨b1, Or.inr hb1, hn1⟩
      · rintro ⟨b1, hb1 | hb1, hn1⟩
        · rw [hb1] at hn1
          rw [hn1] at h
          cases h
        · exact ⟨b1, hb1, hn1⟩

theorem primaryLoop_apply_of_ok (eph : PrimaryEphemeris) (y yn : ℤ) (l : List Body)
    (m : PlanetMap) (x : Body)
    (h : ∀ b ∈ l, primaryBodyPosition eph y yn b ≠ none) :
    (primaryLoop eph y yn l m).1 x =
      if x ∈ l then primaryBodyPosition eph y yn x else m x := by
  induction l generalizing m with
  | nil => simp [primaryLoop]
  | cons b rest ih =>
    cases hp : primaryBodyPosition eph y yn b with
    | none => exact absurd hp (h b (List.mem_cons_self b rest))
    | some p =>
      simp only [primaryLoop, hp]
      rw [ih (m.set b p) (fun b1 hb1 => h b1 (List.mem_cons_of_mem _ hb1))]
      by_cases hx : x ∈ rest
      · simp [hx]
      · by_cases hxb : x = b
        · subst hxb
          simp [hx, PlanetMap.set, hp]
        · simp [hx, hxb, PlanetMap.set]

theorem primaryLoop_trace_primary (eph : PrimaryEphemeris) (y yn : ℤ) (l : List Body)
    (m : PlanetMap) :
    ∀ e ∈ (primaryLoop eph y yn l m).2.2, e.1 = Strategy.primary := by
  induction l generalizing m with
  | nil => simp [primaryLoop]
  | cons b rest ih =>
    cases h : primaryBodyPosition eph y yn b with
    | none => simp [primaryLoop, h]
    | some p =>
      simp only [primaryLoop, h, List.mem_cons]
      rintro e (rfl | he)
      · rfl
      · exact ih (m.set b p) e he

theorem primaryLoop_trace_head (eph : PrimaryEphemeris) (y yn : ℤ) (b : Body)
    (rest : List Body) (m : PlanetMap) :
    ∃ tl, (primaryLoop eph y yn (b :: rest) m).2.2 = (Strategy.primary, b) :: tl := by
  cases h : primaryBodyPosition eph y yn b with
  | none => exact ⟨[], by simp [primaryLoop, h]⟩
  | some p =>
    exact ⟨(primaryLoop eph y yn rest (m.set b p)).2.2, by simp [primaryLoop, h]⟩

/-- None of the seven classical bodies is a node. -/
theorem classicalBodies_not_node :
    ∀ b ∈ classicalBodies, b ≠ Body.Rahu ∧ b ≠ Body.Ketu := by decide

/-- When some Ecliptic call throws, every classical body of the returned map
carries the SECONDARY position: the catch block overwrites any partial
PRIMARY results. -/
theorem provider_apply_of_fail (env : ChartEnv)
    (hfail : ∃ b ∈ classicalBodies,
      primaryBodyPosition env.eph env.year env.yearNext b = none) :
    ∀ b ∈ classicalBodies,
      (getAccuratePlanetaryPositions env).1 b = some (secondaryBodyPosition env b) := by
  intro b hb
  obtain ⟨hbR, hbK⟩ := classicalBodies_not_node b hb
  have hf : (primaryLoop env.eph env.year env.yearNext classicalBodies
      (fun _ => none)).2.1 = true :=
    (primaryLoop_failed_iff _ _ _ _ _).mpr hfail
  simp only [getAccuratePlanetaryPositions]
  rw [if_pos hf]
  dsimp only
  rw [PlanetMap.set_other _ _ hbK, PlanetMap.set_other _ _ hbR]
  simp only [secondaryOverwrite]
  rw [foldl_set_apply]
  simp [hb]

/-- When every Ecliptic call succeeds, every classical body of the returned
map carries the PRIMARY position. -/
theorem provider_apply_of_ok (env : ChartEnv)
    (hok : ∀ b ∈ classicalBodies,
      primaryBodyPosition env.eph env.year env.yearNext b ≠ none) :
    ∀ b ∈ classicalBodies,
      (getAccuratePlanetaryPositions env).1 b =
        primaryBodyPosition env.eph env.year env.yearNext b := by
  intro b hb
  obtain ⟨hbR, hbK⟩ := classicalBodies_not_node b hb
  have hf : ¬ (primaryLoop env.eph env.year env.yearNext classicalBodies
      (fun _ => none)).2.1 = true := by
    intro h
    obtain ⟨b1, hb1, hn1⟩ := (primaryLoop_failed_iff _ _ _ _ _).mp h
    exact absurd hn1 (hok b1 hb1)
  simp only [getAccuratePlanetaryPositions]
  rw [if_neg hf]
  dsimp only
  rw [PlanetMap.set_other _ _ hbK, PlanetMap.set_other _ _ hbR]
  rw [primaryLoop_apply_of_ok _ _ _ _ _ _ hok]
  simp [hb]

/-- Rahu is always present, with the node longitude, zero latitude and the
unconditional retrograde flag. -/
theorem provider_rahu (env : ChartEnv) :
    (getAccuratePlanetaryPositions env).1 Body.Rahu =
      some { longitude := (calculateLunarNodes env.year env.dayOfYear).rahu,
             latitude := 0, retrograde := true } := by
  simp only [getAccuratePlanetaryPositions]
  rw [PlanetMap.set_other _ _ (by decide : Body.Rahu ≠ Body.Ketu),
    PlanetMap.set_self]

/-- Ketu is always present, with the node longitude, zero latitude and the
unconditional retrograde flag. -/
theorem provider_ketu (env : ChartEnv) :
    (getAccuratePlanetaryPositions env).1 Body.Ketu =
      some { longitude := (calculateLunarNodes env.year env.dayOfYear).ketu,
             latitude := 0, retrograde := true } := by
  simp only [getAccuratePlanetaryPositions]
  rw [PlanetMap.set_self]

/-- Structure of a successful PRIMARY per-body computation. -/
theorem primaryBodyPosition_some {eph : PrimaryEphemeris} {y yn : ℤ} {b : Body}
    {p : BodyPosition} (h : primaryBodyPosition eph y yn b = some p) :
    ∃ e, eph.ecliptic b = some e ∧ p.longitude = tropicalToSidereal e.elon y ∧
      p.latitude = e.elat ∧ ((b = Body.Sun ∨ b = Body.Moon) → p.retrograde = false) := by
  cases he : eph.ecliptic b with
  | none => simp [primaryBodyPosition, he] at h
  | some e =>
    cases hf : eph.eclipticNext b with
    | none => simp [primaryBodyPosition, he, hf] at h
    | some f =>
      simp only [primaryBodyPosition, he, hf, Option.some.injEq] at h
      subst h
      exact ⟨e, rfl, rfl, rfl, fun hb => by simp [hb]⟩

theorem calculateSunPosition_longitude_mem (T s1 s2 s3 : ℚ) {year : ℤ}
    (hy0 : 0 ≤ year) (hy1 : year ≤ 9999) :
    0 ≤ (calculateSunPosition T s1 s2 s3 year).longitude ∧
      (calculateSunPosition T s1 s2 s3 year).longitude < 360 := by
  simp only [calculateSunPosition]
  exact tropicalToSidereal_normFixup_mem _ hy0 hy1

theorem calculateMoonPosition_longitude_mem (T s1 s2 s3 : ℚ) {year : ℤ}
    (hy0 : 0 ≤ year) (hy1 : year ≤ 9999) :
    0 ≤ (calculateMoonPosition T s1 s2 s3 year).longitude ∧
      (calculateMoonPosition T s1 s2 s3 year).longitude < 360 := by
  simp only [calculateMoonPosition]
  exact tropicalToSidereal_normFixup_mem _ hy0 hy1

theorem calculatePlanetPosition_longitude_mem (b : Body) (T : ℚ) {year : ℤ}
    (doy : ℤ) (hy0 : 0 ≤ year) (hy1 : year ≤ 9999) :
    0 ≤ (calculatePlanetPosition b T year doy).longitude ∧
      (calculatePlanetPosition b T year doy).longitude < 360 := by
  cases hL : planetElementL b with
  | none =>
    simp only [calculatePlanetPosition, hL]
    norm_num
  | some eL =>
    simp only [calculatePlanetPosition, hL]
    exact tropicalToSidereal_normFixup_mem _ hy0 hy1

theorem secondaryBodyPosition_longitude_mem (env : ChartEnv)
    (hy0 : 0 ≤ env.year) (hy1 : env.year ≤ 9999) (b : Body) :
    0 ≤ (secondaryBodyPosition env b).longitude ∧
      (secondaryBodyPosition env b).longitude < 360 := by
  cases b
  case Sun => exact calculateSunPosition_longitude_mem _ _ _ _ hy0 hy1
  case Moon => exact calculateMoonPosition_longitude_mem _ _ _ _ hy0 hy1
  all_goals exact calculatePlanetPosition_longitude_mem _ _ _ hy0 hy1

/-- Every SECONDARY position reports ecliptic latitude exactly 0. -/
theorem secondaryBodyPosition_latitude (env : ChartEnv) (b : Body) :
    (secondaryBodyPosition env b).latitude = 0 := by
  cases b <;> rfl

theorem secondaryBodyPosition_sun_retro (env : ChartEnv) :
    (secondaryBodyPosition env Body.Sun).retrograde = false := rfl

theorem secondaryBodyPosition_moon_retro (env : ChartEnv) :
    (secondaryBodyPosition env Body.Moon).retrograde = false := rfl

theorem tropicalToSidereal_jsMod_mem {z : ℚ} (hz : 0 ≤ z) {year : ℤ}
    (hy0 : 0 ≤ year) (hy1 : year ≤ 9999) :
    0 ≤ tropicalToSidereal (jsMod z 360) year ∧
      tropicalToSidereal (jsMod z 360) year < 360 :=
  tropicalToSidereal_mem (jsMod_nonneg hz (by norm_num)) (jsMod_lt (by norm_num)) hy0 hy1

/-- Both node longitudes lie in [0,360) for 4-digit years. -/
theorem calculateLunarNodes_mem {year : ℤ} (doy : ℤ)
    (hy0 : 0 ≤ year) (hy1 : year ≤ 9999) :
    (0 ≤ (calculateLunarNodes year doy).rahu ∧ (calculateLunarNodes year doy).rahu < 360) ∧
      (0 ≤ (calculateLunarNodes year doy).ketu ∧
        (calculateLunarNodes year doy).ketu < 360) := by
  simp only [calculateLunarNodes]
  constructor
  · exact tropicalToSidereal_normFixup_mem _ hy0 hy1
  · apply tropicalToSidereal_jsMod_mem _ hy0 hy1
    have := (normFixup360_mem (125.0445479 - 1934.1362891 * ((year : ℚ) - 2000) / 365.25 -
      0.0020756 * (doy : ℚ))).1
    linarith

/-- The provider's ghost trace: the PRIMARY attempts, followed by the
SECONDARY computations when the primary loop failed. -/
theorem provider_trace (env : ChartEnv) :
    (getAccuratePlanetaryPositions env).2 =
      if (primaryLoop env.eph env.year env.yearNext classicalBodies
          (fun _ => none)).2.1 then
        (primaryLoop env.eph env.year env.yearNext classicalBodies (fun _ => none)).2.2 ++
          classicalBodies.map (fun b => (Strategy.secondary, b))
      else (primaryLoop env.eph env.year env.yearNext classicalBodies (fun _ => none)).2.2 := by
  simp only [getAccuratePlanetaryPositions, secondaryOverwrite]
  split <;> rfl

/-- C8: in every returned chart, under either strategy, the Sun and Moon
positions are never flagged retrograde and Rahu and Ketu are always flagged
retrograde = true. -/
theorem c8_retrograde_flags (env : ChartEnv) :
    Option.map BodyPosition.retrograde ((getAccuratePlanetaryPositions env).1 Body.Sun) =
      some false ∧
    Option.map BodyPosition.retrograde ((getAccuratePlanetaryPositions env).1 Body.Moon) =
      some false ∧
    Option.map BodyPosition.retrograde ((getAccuratePlanetaryPositions env).1 Body.Rahu) =
      some true ∧
    Option.map BodyPosition.retrograde ((getAccuratePlanetaryPositions env).1 Body.Ketu) =
      some true := by
  have hRahu : Option.map BodyPosition.retrograde
      ((getAccuratePlanetaryPositions env).1 Body.Rahu) = some true := by
    rw [provider_rahu]
    rfl
  have hKetu : Option.map BodyPosition.retrograde
      ((getAccuratePlanetaryPositions env).1 Body.Ketu) = some true := by
    rw [provider_ketu]
    rfl
  by_cases hfail : ∃ b ∈ classicalBodies,
      primaryBodyPosition env.eph env.year env.yearNext b = none
  · have h := provider_apply_of_fail env hfail
    refine ⟨?_, ?_, hRahu, hKetu⟩
    · rw [h Body.Sun (by decide)]
      rfl
    · rw [h Body.Moon (by decide)]
      rfl
  · push_neg at hfail
    have h := provider_apply_of_ok env hfail
    refine ⟨?_, ?_, hRahu, hKetu⟩
    · rw [h Body.Sun (by decide)]
      cases hp : primaryBodyPosition env.eph env.year env.yearNext Body.Sun with
      | none => exact absurd hp (hfail Body.Sun (by decide))
      | some p =>
        obtain ⟨e, _, _, _, hretro⟩ := primaryBodyPosition_some hp
        simp [hretro (Or.inl rfl)]
    · rw [h Body.Moon (by decide)]
      cases hp : primaryBodyPosition env.eph env.year env.yearNext Body.Moon with
      | none => exact absurd hp (hfail Body.Moon (by decide))
      | some p =>
        obtain ⟨e, _, _, _, hretro⟩ := primaryBodyPosition_some hp
        simp [hretro (Or.inr rfl)]

/-- C9: strategy selection is one-shot per request: the returned positions of
the seven classical bodies all come from one strategy (never mixed), the
first ephemeris attempt is PRIMARY on the Sun, and the attempt trace is a
block of PRIMARY attempts followed by a block of SECONDARY computations —
PRIMARY is never retried after the fallback begins. -/
theorem c9_one_shot_strategy (env : ChartEnv) :
    ((∀ b ∈ classicalBodies,
        (getAccuratePlanetaryPositions env).1 b =
          primaryBodyPosition env.eph env.year env.yearNext b) ∨
      (∀ b ∈ classicalBodies,
        (getAccuratePlanetaryPositions env).1 b = some (secondaryBodyPosition env b))) ∧
    (getAccuratePlanetaryPositions env).2.head? = some (Strategy.primary, Body.Sun) ∧
    ∃ pr se, (getAccuratePlanetaryPositions env).2 = pr ++ se ∧
      (∀ e ∈ pr, e.1 = Strategy.primary) ∧ (∀ e ∈ se, e.1 = Strategy.secondary) := by
  obtain ⟨tl, htl⟩ := primaryLoop_trace_head env.eph env.year env.yearNext Body.Sun
    [Body.Moon, Body.Mercury, Body.Venus, Body.Mars, Body.Jupiter, Body.Saturn]
    (fun _ => none)
  have htrace := provider_trace env
  have hcb : classicalBodies = Body.Sun ::
      [Body.Moon, Body.Mercury, Body.Venus, Body.Mars, Body.Jupiter, Body.Saturn] := rfl
  refine ⟨?_, ?_, ?_⟩
  · by_cases hfail : ∃ b ∈ classicalBodies,
        primaryBodyPosition env.eph env.year env.yearNext b = none
    · exact Or.inr (provider_apply_of_fail env hfail)
    · push_neg at hfail
      exact Or.inl (provider_apply_of_ok env hfail)
  · rw [htrace]
    split
    · rw [hcb, htl]
      rfl
    · rw [hcb, htl]
      rfl
  · rw [htrace]
    split
    · refine ⟨_, _, rfl, primaryLoop_trace_primary _ _ _ _ _, ?_⟩
      intro e he
      obtain ⟨b, _, rfl⟩ := List.mem_map.mp he
      rfl
    · exact ⟨(primaryLoop env.eph env.year env.yearNext classicalBodies
        (fun _ => none)).2.2, [], by simp, primaryLoop_trace_primary _ _ _ _ _, by simp⟩

/-- C10: under the SECONDARY strategy every classical body's reported
ecliptic latitude is exactly 0, and Rahu and Ketu always have latitude
exactly 0 under either strategy (env2 is unconstrained). -/
theorem c10_fallback_latitudes_zero (env env2 : ChartEnv)
    (hfail : ∃ b ∈ classicalBodies,
      primaryBodyPosition env.eph env.year env.yearNext b = none) :
    (∀ b ∈ classicalBodies, ∃ p, (getAccuratePlanetaryPositions env).1 b = some p ∧
      p.latitude = 0) ∧
    Option.map BodyPosition.latitude ((getAccuratePlanetaryPositions env2).1 Body.Rahu) =
      some 0 ∧
    Option.map BodyPosition.latitude ((getAccuratePlanetaryPositions env2).1 Body.Ketu) =
      some 0 := by
  refine ⟨fun b hb => ⟨secondaryBodyPosition env b, provider_apply_of_fail env hfail b hb,
    secondaryBodyPosition_latitude env b⟩, ?_, ?_⟩
  · rw [provider_rahu]
    rfl
  · rw [provider_ketu]
    rfl

/-- Witness for C10 at the environment where every ephemeris call throws. -/
theorem c10_fallback_latitudes_zero_witness :
    (∃ b ∈ classicalBodies,
      primaryBodyPosition envAllFail.eph envAllFail.year envAllFail.yearNext b = none) ∧
    ((∀ b ∈ classicalBodies, ∃ p, (getAccuratePlanetaryPositions envAllFail).1 b = some p ∧
      p.latitude = 0) ∧
    Option.map BodyPosition.latitude
      ((getAccuratePlanetaryPositions envAllFail).1 Body.Rahu) = some 0 ∧
    Option.map BodyPosition.latitude
      ((getAccuratePlanetaryPositions envAllFail).1 Body.Ketu) = some 0) :=
  ⟨⟨Body.Sun, by decide, rfl⟩,
    c10_fallback_latitudes_zero envAllFail envAllFail ⟨Body.Sun, by decide, rfl⟩⟩

/-- Counterexample to C3 as stated: with the same inputs, a chart computed
entirely by the SECONDARY fallback (every ephemeris call throws) carries
exactly the same metadata string as a chart computed entirely by PRIMARY —
the fallback is not recorded anywhere in the output. -/
theorem c3_counterexample :
    (∀ b ∈ classicalBodies, (getAccuratePlanetaryPositions envAllFail).1 b =
      some (secondaryBodyPosition envAllFail b)) ∧
    (∀ b ∈ classicalBodies, (getAccuratePlanetaryPositions envAllOk).1 b =
      primaryBodyPosition envAllOk.eph envAllOk.year envAllOk.yearNext b) ∧
    (calculateBirthChart envAllFail).calculationMethod =
      (calculateBirthChart envAllOk).calculationMethod := by
  refine ⟨provider_apply_of_fail envAllFail ⟨Body.Sun, by decide, rfl⟩,
    provider_apply_of_ok envAllOk ?_, rfl⟩
  decide

/-- C3 amended: the chart metadata's calculationMethod is the constant
string 'astronomy-engine (accurate)' regardless of which strategy produced
the positions; use of the fallback strategy is not recorded. -/
theorem c3_amended_metadata_constant (env env2 : ChartEnv) :
    (calculateBirthChart env).calculationMethod = "astronomy-engine (accurate)" ∧
    (calculateBirthChart env).calculationMethod =
      (calculateBirthChart env2).calculationMethod :=
  ⟨rfl, rfl⟩

/-- Evaluation form of ratTrunc using only the floor function. -/
theorem ratTrunc_eq (x : ℚ) : ratTrunc x = if 0 ≤ x then ⌊x⌋ else -⌊-x⌋ := by
  simp only [ratTrunc]
  split
  · rfl
  · rw [Int.floor_neg]
    omega

theorem mathMod_180 : mathMod (180 : ℚ) 360 = 180 :=
  @mathMod_eq_of_decomp 180 360 180 0 (by norm_num) (by norm_num) (by norm_num)
    (by norm_num)

/-- Counterexample to C4 as stated: at year 2001, day-of-year 0, the code's
Rahu differs from the node computed with the literal reading
yearsSince2000 = calendarYear − 2000, because the source divides the year
difference by 365.25. -/
theorem c4_counterexample :
    (calculateLunarNodes 2001 0).rahu ≠ (specLunarNodesLiteral 2001 0).rahu := by
  norm_num [calculateLunarNodes, specLunarNodesLiteral, specMeanNodeLiteral, specSiderealOf,
    tropicalToSidereal, ayanamsa, jsMod, mathMod, ratTrunc_eq]

/-- C4 amended: for every instant with a 4-digit calendar year, the lunar
node calculator computes the mean ascending node as 125.0445479 −
1934.1362891 × ((calendarYear − 2000) / 365.25) − 0.0020756 × dayOfYear,
normalizes it into [0,360), sets Ketu = Rahu + 180° mod 360, and converts
each node independently through the ayanamsa conversion of spec section
4.2. -/
theorem c4_amended_node_formula (year doy : ℤ) (hy0 : 0 ≤ year) (hy1 : year ≤ 9999) :
    calculateLunarNodes year doy = specLunarNodesAmended year doy := by
  have hmean : (125.0445479 - 1934.1362891 * ((year : ℚ) - 2000) / 365.25 -
      0.0020756 * (doy : ℚ)) = specMeanNodeAmended year doy := by
    simp only [specMeanNodeAmended]
    ring
  simp only [calculateLunarNodes, specLunarNodesAmended]
  rw [jsModFixup_eq_mathMod, hmean]
  have h1 : 0 ≤ mathMod (specMeanNodeAmended year doy) 360 := mathMod_nonneg (by norm_num)
  have h2 : mathMod (specMeanNodeAmended year doy) 360 < 360 := mathMod_lt (by norm_num)
  have hjs : jsMod (mathMod (specMeanNodeAmended year doy) 360 + 180) 360 =
      mathMod (mathMod (specMeanNodeAmended year doy) 360 + 180) 360 :=
    jsMod_eq_mathMod_of_nonneg (by linarith) (by norm_num)
  rw [hjs]
  have h3 : 0 ≤ mathMod (mathMod (specMeanNodeAmended year doy) 360 + 180) 360 :=
    mathMod_nonneg (by norm_num)
  have h4 : mathMod (mathMod (specMeanNodeAmended year doy) 360 + 180) 360 < 360 :=
    mathMod_lt (by norm_num)
  rw [tropicalToSidereal_eq_spec h1 h2 hy0 hy1, tropicalToSidereal_eq_spec h3 h4 hy0 hy1]

/-- Witness for C4 amended at year 2024, day-of-year 100. -/
theorem c4_amended_node_formula_witness :
    (0 : ℤ) ≤ 2024 ∧ (2024 : ℤ) ≤ 9999 ∧
      calculateLunarNodes 2024 100 = specLunarNodesAmended 2024 100 :=
  ⟨by decide, by decide, c4_amended_node_formula 2024 100 (by decide) (by decide)⟩

/-- C5: for every input instant, the returned Rahu and Ketu sidereal
longitudes satisfy |Rahu − Ketu| mod 360 = 180 exactly. -/
theorem c5_node_symmetry (year doy : ℤ) :
    mathMod |(calculateLunarNodes year doy).rahu - (calculateLunarNodes year doy).ketu|
      360 = 180 := by
  have key : ∃ d : ℤ, (calculateLunarNodes year doy).rahu -
      (calculateLunarNodes year doy).ketu = 180 + 360 * (d : ℚ) := by
    simp only [calculateLunarNodes]
    rw [jsModFixup_eq_mathMod]
    set M := 125.0445479 - 1934.1362891 * ((year : ℚ) - 2000) / 365.25 -
      0.0020756 * (doy : ℚ) with hM
    set r0 := mathMod M 360 with hr0
    have h1 : 0 ≤ r0 := mathMod_nonneg (by norm_num)
    have h2 : r0 < 360 := mathMod_lt (by norm_num)
    have hjs : jsMod (r0 + 180) 360 = mathMod (r0 + 180) 360 :=
      jsMod_eq_mathMod_of_nonneg (by linarith) (by norm_num)
    rw [hjs]
    obtain ⟨a, ha, hA⟩ := tropicalToSidereal_decomp r0 year
    obtain ⟨b, hb, hB⟩ := tropicalToSidereal_decomp (mathMod (r0 + 180) 360) year
    rw [hA, hB]
    rcases lt_or_le r0 180 with hcase | hcase
    · have hk : mathMod (r0 + 180) 360 = r0 + 180 :=
        @mathMod_eq_of_decomp (r0 + 180) 360 (r0 + 180) 0 (by norm_num) (by norm_num)
          (by linarith) (by linarith)
      refine ⟨a - b - 1, ?_⟩
      rw [hk]
      push_cast
      ring
    · have hk : mathMod (r0 + 180) 360 = r0 - 180 :=
        @mathMod_eq_of_decomp (r0 + 180) 360 (r0 - 180) 1 (by norm_num)
          (by push_cast; ring) (by linarith) (by linarith)
      refine ⟨a - b, ?_⟩
      rw [hk]
      push_cast
      ring
  obtain ⟨d, hd⟩ := key
  rcases le_or_lt 0 ((calculateLunarNodes year doy).rahu -
    (calculateLunarNodes year doy).ketu) with habs | habs
  · rw [abs_of_nonneg habs, hd, mathMod_add_int_mul]
    exact mathMod_180
  · rw [abs_of_neg habs, hd]
    have hneg : -(180 + 360 * (d : ℚ)) = 180 + 360 * ((-1 - d : ℤ) : ℚ) := by
      push_cast
      ring
    rw [hneg, mathMod_add_int_mul]
    exact mathMod_180

theorem mathMod_30 : mathMod (30 : ℚ) 360 = 30 :=
  @mathMod_eq_of_decomp 30 360 30 0 (by norm_num) (by norm_num) (by norm_num)
    (by norm_num)

/-- A longitude already in [0,360) is its own mathematical modulus. -/
theorem mathMod_eq_self {x : ℚ} (h0 : 0 ≤ x) (h1 : x < 360) : mathMod x 360 = x :=
  @mathMod_eq_of_decomp x 360 x 0 (by norm_num) (by norm_num) h0 h1

/-- The code's house entry equals the spec's house entry, entrywise. -/
theorem houseEntry_eq_spec {asc : ℚ} (h0 : 0 ≤ asc) (i : ℕ) :
    ({ house := i + 1
       cusp := jsMod (asc + (i : ℚ) * 30) 360
       sign := jsMod ((⌊(asc + (i : ℚ) * 30) / 30⌋ : ℤ) : ℚ) 12 } : HouseCusp) =
      specHouseEntry asc i := by
  have hco : asc + (i : ℚ) * 30 = asc + 30 * (i : ℚ) := by ring
  have hx0 : 0 ≤ asc + (i : ℚ) * 30 := by positivity
  have hcusp : jsMod (asc + (i : ℚ) * 30) 360 = mathMod (asc + 30 * (i : ℚ)) 360 := by
    rw [jsMod_eq_mathMod_of_nonneg hx0 (by norm_num), hco]
  have hk0 : 0 ≤ ⌊(asc + (i : ℚ) * 30) / 360⌋ :=
    Int.floor_nonneg.mpr (div_nonneg hx0 (by norm_num))
  have hf0 : 0 ≤ ⌊mathMod (asc + (i : ℚ) * 30) 360 / 30⌋ :=
    Int.floor_nonneg.mpr (div_nonneg (mathMod_nonneg (by norm_num)) (by norm_num))
  have hf1 : ⌊mathMod (asc + (i : ℚ) * 30) 360 / 30⌋ < 12 := by
    rw [Int.floor_lt]
    push_cast
    rw [div_lt_iff₀ (by norm_num : (0 : ℚ) < 30)]
    have := mathMod_lt (x := asc + (i : ℚ) * 30) (y := 360) (by norm_num)
    linarith
  have hfq : (0 : ℚ) ≤ ((⌊mathMod (asc + (i : ℚ) * 30) 360 / 30⌋ : ℤ) : ℚ) := by
    exact_mod_cast hf0
  have hkq : (0 : ℚ) ≤ ((⌊(asc + (i : ℚ) * 30) / 360⌋ : ℤ) : ℚ) := by
    exact_mod_cast hk0
  have hsign : jsMod ((⌊(asc + (i : ℚ) * 30) / 30⌋ : ℤ) : ℚ) 12 =
      mathMod ((⌊mathMod (asc + 30 * (i : ℚ)) 360 / 30⌋ : ℤ) : ℚ) 12 := by
    rw [floor_div_thirty_decomp]
    have hcast : ((12 * ⌊(asc + (i : ℚ) * 30) / 360⌋ +
        ⌊mathMod (asc + (i : ℚ) * 30) 360 / 30⌋ : ℤ) : ℚ) =
        ((⌊mathMod (asc + (i : ℚ) * 30) 360 / 30⌋ : ℤ) : ℚ) +
          12 * ((⌊(asc + (i : ℚ) * 30) / 360⌋ : ℤ) : ℚ) := by
      push_cast
      ring
    rw [hcast, jsMod_eq_mathMod_of_nonneg (by nlinarith) (by norm_num),
      mathMod_add_mul_int (by norm_num), hco]
  simp only [specHouseEntry, hcusp, hsign]

/-- C6: the house calculator returns exactly the 12 spec entries —
cusp(i) = (ascendant + 30×i) mod 360, house = i+1, sign = floor(cusp/30)
mod 12 — consecutive cusps differ by exactly 30 degrees mod 360, and the
cusp of house 1 equals the ascendant longitude. -/
theorem c6_houses (asc : ℚ) (h0 : 0 ≤ asc) (h1 : asc < 360) :
    calculateHouses asc = (List.range 12).map (specHouseEntry asc) ∧
    (calculateHouses asc).length = 12 ∧
    (∀ i : ℕ, i + 1 < 12 →
      mathMod (((calculateHouses asc).getD (i + 1) ⟨0, 0, 0⟩).cusp -
        ((calculateHouses asc).getD i ⟨0, 0, 0⟩).cusp) 360 = 30) ∧
    ((calculateHouses asc).head?.map HouseCusp.cusp) = some asc := by
  have hlist : calculateHouses asc = (List.range 12).map (specHouseEntry asc) := by
    simp only [calculateHouses]
    exact List.map_congr_left fun i _ => houseEntry_eq_spec h0 i
  have hspacing : ∀ i : ℕ,
      mathMod (mathMod (asc + 30 * ((i : ℚ) + 1)) 360 -
        mathMod (asc + 30 * (i : ℚ)) 360) 360 = 30 := by
    intro i
    have hdiff : mathMod (asc + 30 * ((i : ℚ) + 1)) 360 -
        mathMod (asc + 30 * (i : ℚ)) 360 =
        30 + 360 * ((⌊(asc + 30 * (i : ℚ)) / 360⌋ -
          ⌊(asc + 30 * ((i : ℚ) + 1)) / 360⌋ : ℤ) : ℚ) := by
      simp only [mathMod]
      push_cast
      ring
    rw [hdiff, mathMod_add_int_mul, mathMod_30]
  refine ⟨hlist, by rw [hlist]; simp, ?_, ?_⟩
  · intro i hi
    have hi1 : i < 12 := by omega
    have hrange : (List.range 12).length = 12 := by simp
    rw [hlist]
    rw [List.getD_eq_getElem?_getD, List.getD_eq_getElem?_getD]
    rw [List.getElem?_map, List.getElem?_map, List.getElem?_range hi, List.getElem?_range hi1]
    simp only [Option.map_some', Option.getD_some, specHouseEntry]
    have hcast : ((i + 1 : ℕ) : ℚ) = (i : ℚ) + 1 := by push_cast; ring
    rw [hcast]
    exact hspacing i
  · rw [hlist]
    have hr : List.range 12 = [0, 1, 2, 3, 4, 5, 6, 7, 8, 9, 10, 11] := by rfl
    rw [hr]
    have : (specHouseEntry asc 0).cusp = asc := by
      simp only [specHouseEntry]
      have hz : asc + 30 * ((0 : ℕ) : ℚ) = asc := by push_cast; ring
      rw [hz, mathMod_eq_self h0 h1]
    simp only [List.map_cons, List.head?_cons, Option.map_some', this]

/-- Witness for C6 at ascendant longitude 100. -/
theorem c6_houses_witness :
    ((0 : ℚ) ≤ 100 ∧ (100 : ℚ) < 360) ∧
    (calculateHouses 100 = (List.range 12).map (specHouseEntry 100) ∧
    (calculateHouses 100).length = 12 ∧
    (∀ i : ℕ, i + 1 < 12 →
      mathMod (((calculateHouses 100).getD (i + 1) ⟨0, 0, 0⟩).cusp -
        ((calculateHouses 100).getD i ⟨0, 0, 0⟩).cusp) 360 = 30) ∧
    ((calculateHouses 100).head?.map HouseCusp.cusp) = some 100) :=
  ⟨⟨by norm_num, by norm_num⟩, c6_houses 100 (by norm_num) (by norm_num)⟩

/-- C7 (code bug): the mapper computed with the truncated decimal constants
13.333333 and 3.333333 returns pada 5 at longitude 13.3333325 — outside the
claimed range [1,4] — while the spec formula with the exact divisors 360/27
and 360/108 returns 4 there. -/
theorem c7_pada_out_of_range :
    ((0 : ℚ) ≤ 13.3333325 ∧ (13.3333325 : ℚ) < 360) ∧
    nakshatraPada 13.3333325 = 5 ∧ specNakshatraPada 13.3333325 = 4 := by
  refine ⟨⟨by norm_num, by norm_num⟩, ?_, ?_⟩
  · norm_num [nakshatraPada, jsMod, ratTrunc_eq]
  · norm_num [specNakshatraPada, mathMod]

/-- C1: every BirthInput that violates a validation rule makes the pipeline
raise a descriptive (non-empty) validation error with zero position-provider
invocations — validation rejects before any astronomical computation. -/
theorem c1_validation_rejects (env : ChartEnv) (i : BirthInput)
    (h : violatesValidationRules i) :
    ∃ m, runChartPipeline env i = (Except.error m, 0) ∧ m ≠ "" := by
  suffices hv : ∃ m, validateBirthData i = .error m ∧ m ≠ "" by
    obtain ⟨m, hm, hne⟩ := hv
    exact ⟨m, by simp [runChartPipeline, hm], hne⟩
  obtain ⟨date, time, lat, lng⟩ := i
  cases date with
  | none => exact ⟨_, rfl, by decide⟩
  | some d =>
    cases time with
    | none => exact ⟨_, rfl, by decide⟩
    | some t =>
      cases lat with
      | none => exact ⟨_, rfl, by decide⟩
      | some la =>
        cases lng with
        | none => exact ⟨_, rfl, by decide⟩
        | some ln =>
          simp only [validateBirthData]
          by_cases h1 : d = "" ∨ t = ""
          · rw [if_pos h1]
            exact ⟨_, rfl, by decide⟩
          · rw [if_neg h1]
            by_cases h2 : matchesDatePattern d = true
            · rw [if_neg (not_not_intro h2)]
              by_cases h3 : matchesTimePattern t = true
              · rw [if_neg (not_not_intro h3)]
                by_cases h4 : la < -90 ∨ 90 < la
                · rw [if_pos h4]
                  exact ⟨_, rfl, by decide⟩
                · rw [if_neg h4]
                  by_cases h5 : ln < -180 ∨ 180 < ln
                  · rw [if_pos h5]
                    exact ⟨_, rfl, by decide⟩
                  · exfalso
                    simp only [violatesValidationRules, Option.some.injEq] at h
                    rcases h with h | h | h | h | h | h | h | h | h | h
                    · exact Option.noConfusion h
                    · exact h1 (Or.inl h)
                    · exact Option.noConfusion h
                    · exact h1 (Or.inr h)
                    · exact Option.noConfusion h
                    · exact Option.noConfusion h
                    · obtain ⟨d0, hd0, hp⟩ := h
                      rw [← hd0] at hp
                      rw [h2] at hp
                      cases hp
                    · obtain ⟨t0, ht0, hp⟩ := h
                      rw [← ht0] at hp
                      rw [h3] at hp
                      cases hp
                    · obtain ⟨la0, hla0, hp⟩ := h
                      rw [← hla0] at hp
                      exact h4 hp
                    · obtain ⟨ln0, hln0, hp⟩ := h
                      rw [← hln0] at hp
                      exact h5 hp
              · rw [if_pos h3]
                exact ⟨_, rfl, by decide⟩
            · rw [if_pos h2]
              exact ⟨_, rfl, by decide⟩

/-- Witness for C1 at the concrete invalid input of the claim:
{date:"2024-13-40", time:"25:99", lat:91, lng:200}, which violates the
latitude rule. -/
theorem c1_validation_rejects_witness :
    violatesValidationRules badBirthInput ∧
    ∃ m, runChartPipeline envAllOk badBirthInput = (Except.error m, 0) ∧ m ≠ "" :=
  ⟨Or.inr (Or.inr (Or.inr (Or.inr (Or.inr (Or.inr (Or.inr (Or.inr (Or.inl
      ⟨91, rfl, Or.inr (by norm_num)⟩)))))))),
    c1_validation_rejects envAllOk badBirthInput
      (Or.inr (Or.inr (Or.inr (Or.inr (Or.inr (Or.inr (Or.inr (Or.inr (Or.inl
        ⟨91, rfl, Or.inr (by norm_num)⟩)))))))))⟩

/-- The primary ascendant path lands in [0,360) whenever the external
sidereal time is in [0,24) hours, the sine value is in [-1,1], the
geographic longitude is in [-180,180] and the year has 4 digits. -/
theorem ascendantPrimaryPath_longitude_mem {st sinLat lng : ℚ} {year : ℤ}
    (hst0 : 0 ≤ st) (hst1 : st < 24) (hsin : |sinLat| ≤ 1)
    (hlng0 : -180 ≤ lng) (hlng1 : lng ≤ 180) (hy0 : 0 ≤ year) (hy1 : year ≤ 9999) :
    0 ≤ (ascendantPrimaryPath st sinLat lng year).longitude ∧
      (ascendantPrimaryPath st sinLat lng year).longitude < 360 := by
  simp only [ascendantPrimaryPath]
  set v := (st + lng / 15) * 15 with hv
  have hv0 : -180 ≤ v := by rw [hv]; nlinarith
  have hv1 : v < 540 := by rw [hv]; nlinarith
  have g0 : -180 ≤ jsMod v 360 := by
    rcases le_or_lt 0 v with hvs | hvs
    · have := jsMod_nonneg hvs (by norm_num : (0 : ℚ) < 360)
      linarith
    · have heq : jsMod v 360 = v := by
        apply jsMod_eq_self_of_abs_lt
        rw [abs_of_neg hvs]
        linarith
      linarith [heq.ge, heq.le]
  have g1 : jsMod v 360 < 360 := jsMod_lt (by norm_num)
  obtain ⟨c0, c1⟩ := abs_le.mp hsin
  have hc0 : -(23.44 : ℚ) ≤ sinLat * 23.44 := by nlinarith
  have hc1 : sinLat * 23.44 ≤ 23.44 := by nlinarith
  set a0 := jsMod v 360 + sinLat * 23.44 with ha0
  set a1 := if a0 < 0 then a0 + 360 else a0 with ha1
  set a2 := if 360 ≤ a1 then a1 - 360 else a1 with ha2
  have hb1 : 0 ≤ a1 ∧ a1 < 384 := by
    rw [ha1]
    split <;> constructor <;> (rw [ha0] at *; linarith)
  have hb2 : 0 ≤ a2 ∧ a2 < 360 := by
    rw [ha2]
    obtain ⟨i0, i1⟩ := hb1
    split <;> constructor <;> linarith
  exact tropicalToSidereal_mem hb2.1 hb2.2 hy0 hy1

/-- The fallback ascendant path only guarantees (-360, 360): its JS
remainder is never corrected for sign. -/
theorem ascendantFallbackPath_longitude_mem (jd lat lng : ℚ) :
    -360 < (ascendantFallbackPath jd lat lng).longitude ∧
      (ascendantFallbackPath jd lat lng).longitude < 360 := by
  simp only [ascendantFallbackPath]
  exact ⟨neg_lt_jsMod (by norm_num), jsMod_lt (by norm_num)⟩

/-- C2 amended: for every valid input, all nine returned body longitudes (on
either strategy) and the primary-path ascendant lie in [0,360); the
fallback-path ascendant is only guaranteed to lie in (-360,360) because its
remainder is not normalized, and it is negative for some valid inputs. -/
theorem c2_amended_normalization (env : ChartEnv)
    (hy0 : 0 ≤ env.year) (hy1 : env.year ≤ 9999)
    (helon : ∀ b e, env.eph.ecliptic b = some e → 0 ≤ e.elon ∧ e.elon < 360)
    (hst : ∀ s, env.st = some s → 0 ≤ s ∧ s < 24)
    (hsin : |env.sinLat| ≤ 1)
    (hlng0 : -180 ≤ env.lng) (hlng1 : env.lng ≤ 180) :
    (∀ b p, (getAccuratePlanetaryPositions env).1 b = some p →
      0 ≤ p.longitude ∧ p.longitude < 360) ∧
    (∀ b, 0 ≤ (secondaryBodyPosition env b).longitude ∧
      (secondaryBodyPosition env b).longitude < 360) ∧
    (∀ s, env.st = some s → 0 ≤ (calculateBirthChart env).ascendant.longitude ∧
      (calculateBirthChart env).ascendant.longitude < 360) ∧
    (-360 < (ascendantFallbackPath env.jd env.lat env.lng).longitude ∧
      (ascendantFallbackPath env.jd env.lat env.lng).longitude < 360) := by
  refine ⟨?_, fun b => secondaryBodyPosition_longitude_mem env hy0 hy1 b, ?_,
    ascendantFallbackPath_longitude_mem env.jd env.lat env.lng⟩
  · intro b p hp
    by_cases hbR : b = Body.Rahu
    · subst hbR
      rw [provider_rahu] at hp
      have hpe := Option.some.inj hp
      rw [← hpe]
      exact (calculateLunarNodes_mem env.dayOfYear hy0 hy1).1
    · by_cases hbK : b = Body.Ketu
      · subst hbK
        rw [provider_ketu] at hp
        have hpe := Option.some.inj hp
        rw [← hpe]
        exact (calculateLunarNodes_mem env.dayOfYear hy0 hy1).2
      · have hbc : b ∈ classicalBodies := by
          cases b
          case Rahu => exact absurd rfl hbR
          case Ketu => exact absurd rfl hbK
          all_goals decide
        by_cases hfail : ∃ b0 ∈ classicalBodies,
            primaryBodyPosition env.eph env.year env.yearNext b0 = none
        · rw [provider_apply_of_fail env hfail b hbc] at hp
          have hpe := Option.some.inj hp
          rw [← hpe]
          exact secondaryBodyPosition_longitude_mem env hy0 hy1 b
        · push_neg at hfail
          rw [provider_apply_of_ok env hfail b hbc] at hp
          obtain ⟨e, he, hlon, _, _⟩ := primaryBodyPosition_some hp
          rw [hlon]
          obtain ⟨he0, he1⟩ := helon b e he
          exact tropicalToSidereal_mem he0 he1 hy0 hy1
  · intro s hs
    obtain ⟨hs0, hs1⟩ := hst s hs
    have hasc : (calculateBirthChart env).ascendant =
        ascendantPrimaryPath s env.sinLat env.lng env.year := by
      simp [calculateBirthChart, calculateAccurateAscendant, hs]
    rw [hasc]
    exact ascendantPrimaryPath_longitude_mem hs0 hs1 hsin hlng0 hlng1 hy0 hy1

/-- Counterexample to C2 as stated: the valid input 1990-01-01 12:00 UTC at
(0,0) passes validation, yet when the primary ascendant path throws, the
fallback ascendant of the returned chart has a negative longitude — outside
[0,360). -/
theorem c2_counterexample :
    validateBirthData birthInput1990 = .ok true ∧
    env1990.st = none ∧
    (calculateBirthChart env1990).ascendant.longitude < 0 := by
  refine ⟨?_, rfl, ?_⟩
  · simp only [birthInput1990, validateBirthData]
    rw [if_neg (by decide), if_neg (by decide), if_neg (by decide),
      if_neg (by norm_num), if_neg (by norm_num)]
  · have hasc : (calculateBirthChart env1990).ascendant =
        ascendantFallbackPath env1990.jd env1990.lat env1990.lng := by
      simp [calculateBirthChart, calculateAccurateAscendant, env1990]
    rw [hasc]
    norm_num [ascendantFallbackPath, env1990, dateTimeToJulianDay, jsMod, ratTrunc_eq]

/-- Witness for C2 amended at an environment where every external call
succeeds with in-range values. -/
theorem c2_amended_normalization_witness :
    ((0 : ℤ) ≤ envAllOk.year ∧ envAllOk.year ≤ 9999 ∧
     (∀ b e, envAllOk.eph.ecliptic b = some e → 0 ≤ e.elon ∧ e.elon < 360) ∧
     (∀ s, envAllOk.st = some s → 0 ≤ s ∧ s < 24) ∧
     |envAllOk.sinLat| ≤ 1 ∧ -180 ≤ envAllOk.lng ∧ envAllOk.lng ≤ 180) ∧
    ((∀ b p, (getAccuratePlanetaryPositions envAllOk).1 b = some p →
      0 ≤ p.longitude ∧ p.longitude < 360) ∧
     (∀ b, 0 ≤ (secondaryBodyPosition envAllOk b).longitude ∧
      (secondaryBodyPosition envAllOk b).longitude < 360) ∧
     (∀ s, envAllOk.st = some s →
      0 ≤ (calculateBirthChart envAllOk).ascendant.longitude ∧
      (calculateBirthChart envAllOk).ascendant.longitude < 360) ∧
     (-360 < (ascendantFallbackPath envAllOk.jd envAllOk.lat envAllOk.lng).longitude ∧
      (ascendantFallbackPath envAllOk.jd envAllOk.lat envAllOk.lng).longitude < 360)) := by
  have helon : ∀ b e, envAllOk.eph.ecliptic b = some e → 0 ≤ e.elon ∧ e.elon < 360 := by
    intro b e h
    have he := Option.some.inj h
    rw [← he]
    norm_num
  have hst : ∀ s, envAllOk.st = some s → 0 ≤ s ∧ s < 24 := by
    intro s h
    have hs := Option.some.inj h
    rw [← hs]
    norm_num
  exact ⟨⟨by decide, by decide, helon, hst, by norm_num [envAllOk, envAllFail],
      by norm_num [envAllOk, envAllFail], by norm_num [envAllOk, envAllFail]⟩,
    c2_amended_normalization envAllOk (by decide) (by decide) helon hst
      (by norm_num [envAllOk, envAllFail]) (by norm_num [envAllOk, envAllFail])
      (by norm_num [envAllOk, envAllFail])⟩

end Astro
